import Mathlib

/-!
Shallow embedding of the PVTM pipeline (src/pvtm/pvtm.py) — the orchestrator that
trains or loads a Doc2Vec model, fits a Gaussian mixture over the document vectors,
derives per-topic centers, and labels each topic with representative words and
documents.  The helper modules `clustering`, `pvtm_utils`, `doc2vec` and
`stopwords_generator` are imported by the script but are not part of the sources;
definitions that stand for them are modelled from the design document and are marked
as such in their doc comments.  Real-valued quantities (document vectors, BIC scores,
similarity scores) are embedded as rationals.
-/

set_option maxHeartbeats 1000000

namespace PVTM

/-! ## Generic list machinery: a stable insertion sort

The labeling helpers rank words and documents by a score with deterministic
tie-breaking.  `sortByLe le` is a stable insertion sort: `le a b = true` means
`a` may sit (weakly) before `b` in the output, and elements are inserted from
the right, so original order is kept among ties. -/

def insertLe {α : Type} (le : α → α → Bool) (a : α) : List α → List α
  | [] => [a]
  | b :: bs => if le a b then a :: b :: bs else b :: insertLe le a bs

def sortByLe {α : Type} (le : α → α → Bool) (l : List α) : List α :=
  l.foldr (insertLe le) []

/-! ## CLI argument surface (src/pvtm/pvtm.py lines 10-54)

`ap.add_argument` registers sixteen options, each either `required=True` or with a
default, so `args = vars(ap.parse_args())` holds exactly one entry per registered
option on every accepted invocation: the key set of `args` does not depend on the
command line.  argparse derives the dictionary key (the dest) of a long option by
stripping the leading dashes and replacing every remaining dash with an underscore. -/

def registeredLongOptions : List String :=
  ["--input", "--output", "--language", "--d2v-model", "--gmm-model", "--epochs",
   "--dimension", "--lemmathreads", "--lemmabatchsize", "--vectorizermin",
   "--vectorizermax", "--gmmverbose", "--gmmninits", "--gmmrange", "--gmmcvtypes",
   "--numtopicwords"]

def argparseDest (s : String) : String :=
  String.mk ((s.data.drop 2).map (fun c => if c = '-' then '_' else c))

def argsKeys : List String := registeredLongOptions.map argparseDest

/-- Guard of the Doc2Vec branch, line 85: `if 'd2v-model' not in args.keys()` selects
training a new model; the `else` branch loads the pretrained model. -/
def trainsNewDoc2Vec : Bool := !(argsKeys.contains "d2v-model")

/-- Guard at line 122: `if 'gmm-model' not in args.keys()` selects fitting a new GMM. -/
def fitsNewGMM : Bool := !(argsKeys.contains "gmm-model")

/-- Guard at line 106: `if 'gmm-model' in args.keys()` would load the pickled GMM. -/
def loadsPretrainedGMM : Bool := argsKeys.contains "gmm-model"

/-! ## vectors.tsv serialization (lines 112-113)

`pd.DataFrame(vectors).to_csv(path, sep='\t', header=False)` suppresses the header
row but keeps the default `index=True`: every serialized row carries the integer
row label as its first field, followed by that row's cells. -/

def to_csv_rows (m : List (List ℚ)) : List (List ℚ) :=
  m.enum.map (fun p => ((p.1 : ℚ)) :: p.2)

/-! ## ModelSelector -/

/-- Python `range(start, stop, step)` over naturals with a positive step. -/
def rangeList (start stop step : Nat) : List Nat :=
  if step = 0 then []
  else (List.range ((stop - start + step - 1) / step)).map (fun i => start + i * step)

/-- Line 46: `--gmmrange` is three integers `[start, stop, step]`; line 130 hands it to
`clustering.optimize_gmm_components`, which tries every component count in the range. -/
def componentCounts (gmmrange : List Nat) : List Nat :=
  rangeList (gmmrange.getD 0 0) (gmmrange.getD 1 0) (gmmrange.getD 2 1)

/-- One successfully fitted grid candidate: its BIC score, its component count and the
position of its covariance family in the `--gmmcvtypes` list. -/
structure Cand where
  bic : ℚ
  nComponents : Nat
  cvIdx : Nat
  deriving DecidableEq, Repr

/-- Strictly better under the selection order: lower BIC first, then (for equal BIC)
fewer components, then the earlier-listed covariance family. -/
def isBetter (a b : Cand) : Bool :=
  a.bic < b.bic ||
    (a.bic == b.bic &&
      (a.nComponents < b.nComponents ||
        (a.nComponents == b.nComponents && a.cvIdx < b.cvIdx)))

def chooseBetter (best x : Cand) : Cand := if isBetter x best then x else best

def pickBest : List Cand → Option Cand
  | [] => none
  | c :: cs => some (cs.foldl chooseBetter c)

/-- Modelled from the spec: `clustering.optimize_gmm_components` is not under src/.
A fit oracle abstracts one GMM fit: given the covariance family, the component count
and the restart index it returns the fitted candidate's BIC score, or `none` when that
fit fails (numerical singularity, no convergence).  `gridCandidates` is the list of
every successfully fitted candidate over the whole grid. -/
def gridCandidates (fit : String → Nat → Nat → Option ℚ) (cvTypes : List String)
    (counts : List Nat) (nInits : Nat) : List Cand :=
  cvTypes.enum.flatMap (fun p =>
    counts.flatMap (fun n =>
      (List.range nInits).filterMap (fun r =>
        (fit p.2 n r).map (fun b => { bic := b, nComponents := n, cvIdx := p.1 }))))

/-- Modelled from the spec: the per-cell score recorded in the diagnostic table is the
best (lowest) BIC among that cell's restarts, or `none` when every restart failed. -/
def cellScore (fit : String → Nat → Nat → Option ℚ) (cv : String) (n nInits : Nat) :
    Option ℚ :=
  ((List.range nInits).filterMap (fun r => fit cv n r)).min?

def bicTable (fit : String → Nat → Nat → Option ℚ) (cvTypes : List String)
    (counts : List Nat) (nInits : Nat) : List (String × Nat × Option ℚ) :=
  cvTypes.flatMap (fun cv => counts.map (fun n => (cv, n, cellScore fit cv n nInits)))

/-- Modelled from the spec: `clustering.optimize_gmm_components` (called at line 130)
fits the whole grid, returns the globally BIC-minimal candidate (ties broken toward
fewer components, then the earlier covariance family) together with the score table. -/
def optimize_gmm_components (fit : String → Nat → Nat → Option ℚ) (gmmrange : List Nat)
    (cvTypes : List String) (nInits : Nat) :
    Option Cand × List (String × Nat × Option ℚ) :=
  (pickBest (gridCandidates fit cvTypes (componentCounts gmmrange) nInits),
   bicTable fit cvTypes (componentCounts gmmrange) nInits)

/-! ## TopicAssigner: empirical cluster centers and vectors_with_center -/

/-- Embedding dimension of a stored vector matrix: the width of its first row. -/
def vecDim (vectors : List (List ℚ)) : Nat := (vectors.headD []).length

/-- The document vectors hard-assigned to topic `t`: the rows of `vectors` whose
entry in the `gmm_top_topic` column of the document table equals `t`. -/
def topicDocVectors (t : Nat) (topTopic : List Nat) (vectors : List (List ℚ)) :
    List (List ℚ) :=
  ((topTopic.zip vectors).filter (fun p => p.1 == t)).map Prod.snd

/-- Componentwise arithmetic mean of a bag of vectors; an empty bag yields the
all-zero vector of the ambient dimension. -/
def meanVec (dim : Nat) (vs : List (List ℚ)) : List ℚ :=
  if vs.length = 0 then List.replicate dim 0
  else (List.range dim).map (fun j => ((vs.map (fun v => v.getD j 0)).sum) / vs.length)

/-- Modelled from the spec: `clustering.get_gmm_cluster_center` (called at line 193) is
not under src/.  Design §4.2: per topic, the center is the arithmetic mean of the
vectors of all documents whose hard assignment equals that topic; a topic with zero
hard-assigned documents yields an all-zero center. -/
def get_gmm_cluster_center (nComponents : Nat) (topTopic : List Nat)
    (vectors : List (List ℚ)) : List (List ℚ) :=
  (List.range nComponents).map
    (fun t => meanVec (vecDim vectors) (topicDocVectors t topTopic vectors))

/-- The fitted mixture as the script sees it: its component count and the fitted
per-component mean vectors `clf.means_` (line 139). -/
structure GMMFit where
  nComponents : Nat
  means : List (List ℚ)

/-- Line 140: `np.append(vectors, gmm_center, axis=0)` builds a fresh matrix that is
the document vectors with the fitted component means appended as extra rows. -/
def vectors_with_center (vectors means : List (List ℚ)) : List (List ℚ) :=
  vectors ++ means

/-- The two kinds of centers the clustering block produces: the empirical centers
handed to the labeling step (line 193) and the matrix written to
vectors_with_center.tsv, which uses the fitted means `clf.means_` (lines 139-142). -/
structure ClusterArtifacts where
  labelingCenters : List (List ℚ)
  vectorsWithCenter : List (List ℚ)

def clusterStage (clf : GMMFit) (topTopic : List Nat) (vectors : List (List ℚ)) :
    ClusterArtifacts :=
  { labelingCenters := get_gmm_cluster_center clf.nComponents topTopic vectors
    vectorsWithCenter := vectors_with_center vectors clf.means }

/-! ## TopicLabeler -/

/-- Case folding over the character list (ASCII-style lowercasing of each char). -/
def lowerStr (s : String) : String := String.mk (s.data.map Char.toLower)

/-- Case-insensitive stopword test: the token, lowercased, is in the lowercased
stopword set. -/
def isStopword (stopwords : List String) (w : String) : Bool :=
  (stopwords.map lowerStr).contains (lowerStr w)

def countOcc (toks : List String) (w : String) : Nat :=
  (toks.filter (fun x => x == w)).length

/-- The distinct tokens of a list, in first-occurrence order. -/
def distinctTokens : List String → List String
  | [] => []
  | w :: ws => w :: (distinctTokens ws).filter (fun x => !(x == w))

/-- Descending count; on ties the stable sort keeps first-occurrence order. -/
def freqIsBefore (a b : String × Nat) : Bool := b.2 ≤ a.2

/-- Modelled from the spec: word-frequency ranking of design §4.3.  Tokenize the
topic's documents, drop stopwords (case-insensitive), count the remaining tokens,
sort descending by count with ties in first-occurrence order, and keep at most
`num_words` entries (never pad). -/
def topWordsForTopic (docsTokens : List (List String)) (stopwords : List String)
    (num_words : Nat) : List (String × Nat) :=
  let toks := docsTokens.flatten.filter (fun w => !(isStopword stopwords w))
  let counted := (distinctTokens toks).map (fun w => (w, countOcc toks w))
  (sortByLe freqIsBefore counted).take num_words

/-- The token lists of the documents hard-assigned to topic `t`. -/
def topicDocTokens (t : Nat) (topTopic : List Nat) (docsTokens : List (List String)) :
    List (List String) :=
  ((topTopic.zip docsTokens).filter (fun p => p.1 == t)).map Prod.snd

/-- Modelled from the spec: `pvtm_utils.get_all_topics_from_centers` (called at line
197) is not under src/.  One raw row of ranked (word, count) pairs per topic center,
via the frequency ranking above. -/
def get_all_topics_from_centers (centers : List (List ℚ)) (topTopic : List Nat)
    (docsTokens : List (List String)) (stopwords : List String) (num_words : Nat) :
    List (List (String × Nat)) :=
  (List.range centers.length).map
    (fun t => topWordsForTopic (topicDocTokens t topTopic docsTokens) stopwords num_words)

/-- Length of the longest raw topic row: pandas pads the shorter rows of the ragged
topics table (line 202's input) with missing entries up to this length. -/
def maxRowLen (rows : List (List (String × Nat))) : Nat :=
  (rows.map List.length).foldr max 0

def padTopicRows (rows : List (List (String × Nat))) :
    List (List (Option (String × Nat))) :=
  rows.map (fun r => r.map some ++ List.replicate (maxRowLen rows - r.length) none)

/-- Line 202: `('', 0) if v is None else v` — a missing entry becomes the
empty-string word with count 0. -/
def fillPair (v : Option (String × Nat)) : String × Nat := v.getD ("", 0)

/-- Line 202's `zip(*...)`: a padded row splits into the parallel `top_words` and
`top_words_count` columns. -/
def unpackTopicRow (row : List (Option (String × Nat))) : List String × List Nat :=
  ((row.map fillPair).map Prod.fst, (row.map fillPair).map Prod.snd)

/-- Line 203. -/
def topicsBaseColumns : List String := ["top_words", "top_words_count"]

/-- Modelled from the spec: the dataframe returned by
`pvtm_utils.get_most_similar_words_and_docs` carries these four columns (design §6). -/
def simsdfColumns : List String :=
  ["sim_words", "sim_words_prob", "sim_docs_indx", "sim_docs_prob"]

/-- Line 208: `topics.join(simsdf)` appends the similarity columns after the two
word-frequency columns. -/
def topicsCsvColumns : List String := topicsBaseColumns ++ simsdfColumns

/-- The labeling view of the loaded embedding model: the ordered vocabulary, one
embedding vector per vocabulary item, and one vector per document. -/
structure EmbModel where
  vocab : List String
  wordVecs : List (List ℚ)
  docVecs : List (List ℚ)

/-- One row of the similarity dataframe. -/
structure SimRow where
  sim_words : List String
  sim_words_prob : List ℚ
  sim_docs_indx : List Nat
  sim_docs_prob : List ℚ
  deriving DecidableEq, Repr

/-- Descending similarity score; equal scores fall back to ascending index. -/
def simIsBefore (a b : Nat × ℚ) : Bool := b.2 < a.2 || (a.2 == b.2 && a.1 ≤ b.1)

/-- Score every item against the center, sort by descending score (ties by index
ascending) and keep the top `k`. -/
def rankBySim (sim : List ℚ → List ℚ → ℚ) (c : List ℚ) (items : List (List ℚ))
    (k : Nat) : List (Nat × ℚ) :=
  (sortByLe simIsBefore (items.enum.map (fun p => (p.1, sim c p.2)))).take k

/-- Modelled from the spec: `pvtm_utils.get_most_similar_words_and_docs` (called at
line 207) is not under src/.  Design §4.3: per topic center, the `num_words`
vocabulary items and the `num_docs` documents most similar to the center, by the
embedding model's similarity metric `sim`, each with its score. -/
def get_most_similar_words_and_docs (centers : List (List ℚ)) (m : EmbModel)
    (sim : List ℚ → List ℚ → ℚ) (num_words num_docs : Nat) : List SimRow :=
  centers.map (fun c =>
    let ws := rankBySim sim c m.wordVecs num_words
    let ds := rankBySim sim c m.docVecs num_docs
    { sim_words := ws.map (fun p => m.vocab.getD p.1 "")
      sim_words_prob := ws.map Prod.snd
      sim_docs_indx := ds.map Prod.fst
      sim_docs_prob := ds.map Prod.snd })

/-- The topics table assembled by lines 197-208: the padded-and-unpacked word
frequency columns joined with the similarity dataframe.  Line 207 passes the literal
caps `num_words=30, num_docs=30` to the similarity lookup; only the frequency
ranking receives `args['numtopicwords']`. -/
structure TopicsTable where
  top_words : List (List String)
  top_words_count : List (List Nat)
  simRows : List SimRow

def labelingStage (numtopicwords : Nat) (centers : List (List ℚ)) (topTopic : List Nat)
    (docsTokens : List (List String)) (stopwords : List String) (m : EmbModel)
    (sim : List ℚ → List ℚ → ℚ) : TopicsTable :=
  let raw := get_all_topics_from_centers centers topTopic docsTokens stopwords numtopicwords
  let padded := padTopicRows raw
  { top_words := padded.map (fun r => (unpackTopicRow r).1)
    top_words_count := padded.map (fun r => (unpackTopicRow r).2)
    simRows := get_most_similar_words_and_docs centers m sim 30 30 }

/-! ## Stopword generation (lines 115-117) -/

/-- The typed view of the parsed CLI arguments that the later stages consult. -/
structure Args where
  input : String
  output : String
  language : String
  d2v_model : String
  gmm_model : String
  numtopicwords : Nat
  gmmrange : List Nat
  gmmcvtypes : List String
  gmmninits : Nat

/-- Lines 116-117: the stopword set comes from
`stopwords_generator.get_all_stopwords(' '.join(vocab[:100]))` — language detection
over the space-joined first 100 vocabulary tokens.  The detector itself
(`stopwords_generator` is not under src/) is abstracted as a parameter returning the
stopword set and the detected language; `args['language']` is not consulted. -/
def pipelineStopwords (detector : String → List String × String) (a : Args)
    (vocab : List String) : List String × String :=
  detector (String.intercalate " " (vocab.take 100))

/-! ## The composed run, threading the vector matrix through every stage

Each stage receives the document-vector matrix and hands it on unchanged: numpy
arrays are passed by reference, `np.append` allocates a fresh array (line 140), and
the design (§2, §4.1) has every downstream consumer read the VectorStore read-only. -/

def selectStage (fitOf : List (List ℚ) → String → Nat → Nat → Option ℚ)
    (gmmrange : List Nat) (cvTypes : List String) (nInits : Nat)
    (vectors : List (List ℚ)) :
    (Option Cand × List (String × Nat × Option ℚ)) × List (List ℚ) :=
  (optimize_gmm_components (fitOf vectors) gmmrange cvTypes nInits, vectors)

def assignStage (clf : GMMFit) (topTopic : List Nat) (vectors : List (List ℚ)) :
    ClusterArtifacts × List (List ℚ) :=
  (clusterStage clf topTopic vectors, vectors)

def labelStage (numtopicwords : Nat) (centers : List (List ℚ)) (topTopic : List Nat)
    (docsTokens : List (List String)) (stopwords : List String) (m : EmbModel)
    (sim : List ℚ → List ℚ → ℚ) (vectors : List (List ℚ)) :
    TopicsTable × List (List ℚ) :=
  (labelingStage numtopicwords centers topTopic docsTokens stopwords m sim, vectors)

structure RunOutput where
  tsvRows : List (List ℚ)
  selection : Option Cand × List (String × Nat × Option ℚ)
  clusterArts : ClusterArtifacts
  topics : TopicsTable
  finalVectors : List (List ℚ)

/-- The orchestrated run on an in-memory vector matrix: write vectors.tsv (line 113),
select the mixture (line 130), compute both kinds of centers (lines 139-142, 193) and
label the topics (lines 197-208).  `gmmOf` abstracts materializing the fitted sklearn
object for the selected candidate. -/
def runPipeline (fitOf : List (List ℚ) → String → Nat → Nat → Option ℚ)
    (gmmrange : List Nat) (cvTypes : List String) (nInits numtopicwords : Nat)
    (gmmOf : Option Cand → GMMFit) (topTopic : List Nat)
    (docsTokens : List (List String)) (stopwords : List String) (m : EmbModel)
    (sim : List ℚ → List ℚ → ℚ) (vectors0 : List (List ℚ)) : RunOutput :=
  let tsv := to_csv_rows vectors0
  let p1 := selectStage fitOf gmmrange cvTypes nInits vectors0
  let p2 := assignStage (gmmOf p1.1.1) topTopic p1.2
  let p3 := labelStage numtopicwords p2.1.labelingCenters topTopic docsTokens
    stopwords m sim p2.2
  { tsvRows := tsv, selection := p1.1, clusterArts := p2.1, topics := p3.1,
    finalVectors := p3.2 }

/-! ## Concrete instances used by witnesses and counterexamples -/

/-- A concrete fit oracle: every fit with the `full` family fails, every other fit's
BIC score equals its component count. -/
def fitW : String → Nat → Nat → Option ℚ :=
  fun cv n _ => if cv = "full" then none else some ((n : ℚ))

/-- A concrete six-word embedding model with one-dimensional vectors. -/
def embW : EmbModel :=
  { vocab := ["alpha", "beta", "gamma", "delta", "epsilon", "zeta"]
    wordVecs := [[6], [5], [4], [3], [2], [1]]
    docVecs := [[9]] }

/-- A similarity metric for witnesses: the first component of the item vector. -/
def headSim : List ℚ → List ℚ → ℚ := fun _ v => v.headD 0

/-! ## Helper lemmas -/

theorem length_insertLe {α : Type} (le : α → α → Bool) (a : α) (l : List α) :
    (insertLe le a l).length = l.length + 1 := by
  induction l with
  | nil => rfl
  | cons b bs ih =>
    simp only [insertLe]
    split
    · simp
    · simp [ih]

theorem mem_insertLe {α : Type} (le : α → α → Bool) (a x : α) (l : List α) :
    x ∈ insertLe le a l ↔ x = a ∨ x ∈ l := by
  induction l with
  | nil => simp [insertLe]
  | cons b bs ih =>
    simp only [insertLe]
    split
    · simp
    · simp only [List.mem_cons, ih]
      tauto

theorem mem_sortByLe {α : Type} (le : α → α → Bool) (x : α) (l : List α) :
    x ∈ sortByLe le l ↔ x ∈ l := by
  induction l with
  | nil => simp [sortByLe]
  | cons b bs ih =>
    simp only [sortByLe, List.foldr] at ih ⊢
    rw [mem_insertLe]
    simp [ih]

theorem length_sortByLe {α : Type} (le : α → α → Bool) (l : List α) :
    (sortByLe le l).length = l.length := by
  induction l with
  | nil => rfl
  | cons b bs ih =>
    simp only [sortByLe, List.foldr] at ih ⊢
    rw [length_insertLe, ih]
    simp

theorem chooseBetter_bic_le (c y : Cand) :
    (chooseBetter c y).bic ≤ c.bic ∧ (chooseBetter c y).bic ≤ y.bic := by
  unfold chooseBetter
  by_cases h : isBetter y c = true
  · simp only [h, if_true]
    simp only [isBetter, Bool.or_eq_true, Bool.and_eq_true, decide_eq_true_eq,
      beq_iff_eq] at h
    rcases h with h | ⟨h, _⟩
    · exact ⟨le_of_lt h, le_refl _⟩
    · exact ⟨le_of_eq h, le_refl _⟩
  · simp only [h, if_false]
    simp only [isBetter, Bool.or_eq_true, Bool.and_eq_true, decide_eq_true_eq,
      beq_iff_eq, not_or, not_and] at h
    exact ⟨le_refl _, le_of_not_lt h.1⟩

theorem foldl_chooseBetter_bic_le (cs : List Cand) (c : Cand) :
    (cs.foldl chooseBetter c).bic ≤ c.bic ∧
      ∀ x ∈ cs, (cs.foldl chooseBetter c).bic ≤ x.bic := by
  induction cs generalizing c with
  | nil => exact ⟨le_refl _, by simp⟩
  | cons y ys ih =>
    have hcy := chooseBetter_bic_le c y
    have hrec := ih (chooseBetter c y)
    refine ⟨le_trans hrec.1 hcy.1, ?_⟩
    intro x hx
    rcases List.mem_cons.mp hx with rfl | hx
    · exact le_trans hrec.1 hcy.2
    · exact hrec.2 x hx

theorem pickBest_bic_le (l : List Cand) (b : Cand) (h : pickBest l = some b) :
    ∀ x ∈ l, b.bic ≤ x.bic := by
  cases l with
  | nil => simp [pickBest] at h
  | cons c cs =>
    simp only [pickBest, Option.some.injEq] at h
    subst h
    intro x hx
    rcases List.mem_cons.mp hx with rfl | hx
    · exact (foldl_chooseBetter_bic_le cs x).1
    · exact (foldl_chooseBetter_bic_le cs c).2 x hx

theorem to_csv_rows_tails (m : List (List ℚ)) :
    (to_csv_rows m).map List.tail = m := by
  simp only [to_csv_rows, List.map_map]
  have : (List.tail ∘ fun p : Nat × List ℚ => ((p.1 : ℚ)) :: p.2) = Prod.snd := by
    funext p
    rfl
  rw [this, List.enum_map_snd]

theorem to_csv_rows_heads (m : List (List ℚ)) :
    (to_csv_rows m).map List.head? =
      (List.range m.length).map (fun i : Nat => some ((i : ℚ))) := by
  simp only [to_csv_rows, List.map_map]
  have : (List.head? ∘ fun p : Nat × List ℚ => ((p.1 : ℚ)) :: p.2) =
      (fun i : Nat => some ((i : ℚ))) ∘ Prod.fst := by
    funext p
    rfl
  rw [this, ← List.map_map, List.enum_map_fst]

theorem mem_distinctTokens (x : String) (l : List String) :
    x ∈ distinctTokens l → x ∈ l := by
  induction l with
  | nil => simp [distinctTokens]
  | cons w ws ih =>
    intro hx
    rcases List.mem_cons.mp hx with rfl | hx
    · exact List.mem_cons_self _ _
    · exact List.mem_cons_of_mem _ (ih (List.mem_of_mem_filter hx))

theorem getD_map_lt {α β : Type} (f : α → β) (l : List α) (t : Nat) (d : β) (d' : α)
    (h : t < l.length) : (l.map f).getD t d = f (l.getD t d') := by
  simp [List.getD, List.get?_eq_getElem?, List.getElem?_map,
    List.getElem?_eq_getElem h]

theorem getD_map_range {α : Type} (f : Nat → α) (n t : Nat) (d : α) (h : t < n) :
    ((List.range n).map f).getD t d = f t := by
  rw [getD_map_lt f (List.range n) t d 0 (by simpa using h)]
  simp [List.getD, List.get?_eq_getElem?, List.getElem?_range, h]

theorem topicDocTokens_eq_nil (t : Nat) (topTopic : List Nat)
    (docsTokens : List (List String)) (h : t ∉ topTopic) :
    topicDocTokens t topTopic docsTokens = [] := by
  unfold topicDocTokens
  rw [List.filter_eq_nil_iff.mpr, List.map_nil]
  intro p hp
  have hmem := (List.of_mem_zip hp).1
  simp only [beq_iff_eq, Bool.not_eq_true]
  intro hc
  exact h (by rwa [hc] at hmem)

theorem topWordsForTopic_nil (stopwords : List String) (n : Nat) :
    topWordsForTopic [] stopwords n = [] := by
  simp [topWordsForTopic, distinctTokens, sortByLe]

theorem topWordsForTopic_length_le (docsTokens : List (List String))
    (stopwords : List String) (n : Nat) :
    (topWordsForTopic docsTokens stopwords n).length ≤ n :=
  List.length_take_le n _

theorem topWordsForTopic_no_stopword (docsTokens : List (List String))
    (stopwords : List String) (n : Nat) (p : String × Nat)
    (hp : p ∈ topWordsForTopic docsTokens stopwords n) :
    isStopword stopwords p.1 = false := by
  unfold topWordsForTopic at hp
  have h1 := List.take_subset _ _ hp
  rw [mem_sortByLe] at h1
  obtain ⟨w, hw, rfl⟩ := List.mem_map.mp h1
  have h2 := mem_distinctTokens _ _ hw
  rw [List.mem_filter] at h2
  simpa using h2.2

theorem simRow_lengths (centers : List (List ℚ)) (m : EmbModel)
    (sim : List ℚ → List ℚ → ℚ) (nw nd : Nat) (s : SimRow)
    (hs : s ∈ get_most_similar_words_and_docs centers m sim nw nd) :
    s.sim_words.length ≤ nw ∧ s.sim_words.length = s.sim_words_prob.length ∧
      s.sim_docs_indx.length ≤ nd ∧
      s.sim_docs_indx.length = s.sim_docs_prob.length := by
  unfold get_most_similar_words_and_docs at hs
  obtain ⟨c, hc, rfl⟩ := List.mem_map.mp hs
  refine ⟨?_, by simp, ?_, by simp⟩
  · simp only [List.length_map, rankBySim, List.length_take]
    exact min_le_left _ _
  · simp only [List.length_map, rankBySim, List.length_take]
    exact min_le_left _ _

/-! ## Claim theorems -/

/-- C1: the source checks `'d2v-model' not in args.keys()` (line 85) and
`'gmm-model' not in args.keys()` (lines 106, 122), but argparse stores these options
under the underscored keys `d2v_model` / `gmm_model`, so on every invocation —
including one that supplies `--d2v-model` and `--gmm-model` paths — the hyphenated
keys are absent, the train/fit branches are taken and the load-pretrained branches
are unreachable. -/
theorem c1_load_pretrained_branch_unreachable :
    argsKeys.contains "d2v_model" = true ∧ argsKeys.contains "gmm_model" = true ∧
      argsKeys.contains "d2v-model" = false ∧ argsKeys.contains "gmm-model" = false ∧
      trainsNewDoc2Vec = true ∧ fitsNewGMM = true ∧ loadsPretrainedGMM = false := by
  decide

/-- C2: whenever model selection returns a best candidate, its BIC is less than or
equal to the BIC of every successfully fitted candidate in the grid. -/
theorem c2_select_model_bic_minimal (fit : String → Nat → Nat → Option ℚ)
    (gmmrange : List Nat) (cvTypes : List String) (nInits : Nat) (best : Cand)
    (h : (optimize_gmm_components fit gmmrange cvTypes nInits).1 = some best) :
    ∀ c ∈ gridCandidates fit cvTypes (componentCounts gmmrange) nInits,
      best.bic ≤ c.bic := by
  unfold optimize_gmm_components at h
  exact pickBest_bic_le _ best h

/-- Witness for C2 at a concrete grid: range [2, 7, 2] gives component counts
[2, 4, 6]; the families are spherical (index 0) and full (index 1), one restart, with
oracle `fitW` for which every full fit fails.  Selection returns the count-2
spherical candidate, whose BIC is ≤ that of the count-6 candidate in the grid. -/
theorem c2_select_model_bic_minimal_witness :
    (optimize_gmm_components fitW [2, 7, 2] ["spherical", "full"] 1).1 =
        some { bic := 2, nComponents := 2, cvIdx := 0 } ∧
      ({ bic := 2, nComponents := 2, cvIdx := 0 } : Cand).bic ≤
        ({ bic := 6, nComponents := 6, cvIdx := 0 } : Cand).bic :=
  ⟨by decide,
   c2_select_model_bic_minimal fitW [2, 7, 2] ["spherical", "full"] 1
     { bic := 2, nComponents := 2, cvIdx := 0 } (by decide)
     { bic := 6, nComponents := 6, cvIdx := 0 } (by decide)⟩

/-- C3: the topic center handed to the labeling step is the post-hoc empirical mean
of the vectors of the documents hard-assigned to that topic, the fitted means
`clf.means_` go (appended to the vectors) into the vectors_with_center artifact only,
and there are inputs on which the two kinds of centers differ. -/
theorem c3_labeling_anchor_is_empirical_mean (clf : GMMFit) (topTopic : List Nat)
    (vectors : List (List ℚ)) (t : Nat) (ht : t < clf.nComponents) :
    (clusterStage clf topTopic vectors).labelingCenters.getD t [] =
        meanVec (vecDim vectors) (topicDocVectors t topTopic vectors) ∧
      (clusterStage clf topTopic vectors).vectorsWithCenter = vectors ++ clf.means ∧
      ∃ clf2 : GMMFit, ∃ topTopic2 : List Nat, ∃ vectors2 : List (List ℚ),
        (clusterStage clf2 topTopic2 vectors2).labelingCenters ≠ clf2.means := by
  refine ⟨?_, rfl, ⟨1, [[5]]⟩, [0, 0], [[0], [2]], ?_⟩
  · simp [clusterStage, get_gmm_cluster_center, List.getD, List.get?_eq_getElem?,
      List.getElem?_map, List.getElem?_range, ht]
  · norm_num [clusterStage, get_gmm_cluster_center, vecDim, topicDocVectors, meanVec,
      List.range_succ]

/-- Witness for C3 at a concrete input: two topics, fitted means [[3], [4]], hard
assignments [0, 1] over the vectors [[1], [5]], instantiated at topic 1 < 2. -/
theorem c3_labeling_anchor_witness :
    1 < (GMMFit.mk 2 [[3], [4]]).nComponents ∧
      ((clusterStage (GMMFit.mk 2 [[3], [4]]) [0, 1] [[1], [5]]).labelingCenters.getD 1 [] =
          meanVec (vecDim [[1], [5]]) (topicDocVectors 1 [0, 1] [[1], [5]]) ∧
        (clusterStage (GMMFit.mk 2 [[3], [4]]) [0, 1] [[1], [5]]).vectorsWithCenter =
          [[1], [5]] ++ (GMMFit.mk 2 [[3], [4]]).means ∧
        ∃ clf2 : GMMFit, ∃ topTopic2 : List Nat, ∃ vectors2 : List (List ℚ),
          (clusterStage clf2 topTopic2 vectors2).labelingCenters ≠ clf2.means) :=
  ⟨by decide,
   c3_labeling_anchor_is_empirical_mean (GMMFit.mk 2 [[3], [4]]) [0, 1] [[1], [5]] 1
     (by decide)⟩

/-- C7 counterexample: for the one-document matrix [[1, 2]] the serialized row is
[0, 1, 2] — the pandas index label comes first — not the bare components [1, 2]. -/
theorem c7_counterexample : to_csv_rows [[(1 : ℚ), 2]] ≠ [[(1 : ℚ), 2]] := by decide

/-- C7 (amended): vectors.tsv has no header and one row per document, but each row
carries the integer row label as an extra first field followed by the vector
components: dropping the first field of every row recovers the raw matrix, and the
first fields are exactly 0, 1, 2, .... -/
theorem c7_vectors_tsv_shape (m : List (List ℚ)) :
    (to_csv_rows m).length = m.length ∧
      (to_csv_rows m).map List.tail = m ∧
      (to_csv_rows m).map List.head? =
        (List.range m.length).map (fun i : Nat => some ((i : ℚ))) :=
  ⟨by simp [to_csv_rows], to_csv_rows_tails m, to_csv_rows_heads m⟩

/-- C8: the document-vector matrix is threaded through model selection, topic
assignment, center computation and labeling unchanged; the matrix at the end of the
run equals the one serialized to vectors.tsv at the start (the tsv's data fields,
after the index column, are exactly the final matrix). -/
theorem c8_vectors_never_mutated
    (fitOf : List (List ℚ) → String → Nat → Nat → Option ℚ) (gmmrange : List Nat)
    (cvTypes : List String) (nInits numtopicwords : Nat) (gmmOf : Option Cand → GMMFit)
    (topTopic : List Nat) (docsTokens : List (List String)) (stopwords : List String)
    (m : EmbModel) (sim : List ℚ → List ℚ → ℚ) (vectors0 : List (List ℚ)) :
    (runPipeline fitOf gmmrange cvTypes nInits numtopicwords gmmOf topTopic docsTokens
        stopwords m sim vectors0).finalVectors = vectors0 ∧
      (runPipeline fitOf gmmrange cvTypes nInits numtopicwords gmmOf topTopic docsTokens
          stopwords m sim vectors0).tsvRows.map List.tail =
        (runPipeline fitOf gmmrange cvTypes nInits numtopicwords gmmOf topTopic
            docsTokens stopwords m sim vectors0).finalVectors :=
  ⟨rfl, to_csv_rows_tails vectors0⟩

/-- C9: the vectors_with_center matrix written when a new GMM is fitted is the
document-vector matrix with the fitted component means appended as extra rows — the
first n rows are the n document vectors, followed by exactly one row per mixture
component — and its serialization's data fields (after the index column) are exactly
those stacked rows. -/
theorem c9_vectors_with_center_rows (vectors means : List (List ℚ)) :
    (vectors_with_center vectors means).length = vectors.length + means.length ∧
      (vectors_with_center vectors means).take vectors.length = vectors ∧
      (vectors_with_center vectors means).drop vectors.length = means ∧
      (to_csv_rows (vectors_with_center vectors means)).map List.tail =
        vectors ++ means :=
  ⟨by simp [vectors_with_center], List.take_left vectors means,
   List.drop_left vectors means, to_csv_rows_tails (vectors_with_center vectors means)⟩

/-- C4: the topics table carries exactly the columns top_words, top_words_count,
sim_words, sim_words_prob, sim_docs_indx, sim_docs_prob in that order; in every row
the word and count columns unpack one ranked list (their rank-i entries zip back to
the i-th ranked pair), and the similarity word and document fields are parallel
lists of equal length, each pair produced from a single ranking. -/
theorem c4_topics_csv_columns (row : List (Option (String × Nat)))
    (centers : List (List ℚ)) (m : EmbModel) (sim : List ℚ → List ℚ → ℚ)
    (num_words num_docs : Nat) (s : SimRow)
    (hs : s ∈ get_most_similar_words_and_docs centers m sim num_words num_docs) :
    topicsCsvColumns = ["top_words", "top_words_count", "sim_words",
        "sim_words_prob", "sim_docs_indx", "sim_docs_prob"] ∧
      (unpackTopicRow row).1.length = (unpackTopicRow row).2.length ∧
      ((unpackTopicRow row).1).zip ((unpackTopicRow row).2) = row.map fillPair ∧
      s.sim_words.length = s.sim_words_prob.length ∧
      s.sim_docs_indx.length = s.sim_docs_prob.length := by
  have hlens := simRow_lengths centers m sim num_words num_docs s hs
  refine ⟨rfl, by simp [unpackTopicRow], ?_, hlens.2.1, hlens.2.2.2⟩
  simp [unpackTopicRow, List.zip_map']

/-- Witness for C4 at a concrete input: one center, the six-word model, similarity
caps 2 and 1, and the padded frequency row [("cat", 3), missing]. -/
theorem c4_topics_csv_columns_witness :
    SimRow.mk ["alpha", "beta"] [6, 5] [0] [9] ∈
        get_most_similar_words_and_docs [[0]] embW headSim 2 1 ∧
      (topicsCsvColumns = ["top_words", "top_words_count", "sim_words",
          "sim_words_prob", "sim_docs_indx", "sim_docs_prob"] ∧
        (unpackTopicRow [some ("cat", 3), none]).1.length =
          (unpackTopicRow [some ("cat", 3), none]).2.length ∧
        ((unpackTopicRow [some ("cat", 3), none]).1).zip
            ((unpackTopicRow [some ("cat", 3), none]).2) =
          [some ("cat", 3), none].map fillPair ∧
        (SimRow.mk ["alpha", "beta"] [6, 5] [0] [9]).sim_words.length =
          (SimRow.mk ["alpha", "beta"] [6, 5] [0] [9]).sim_words_prob.length ∧
        (SimRow.mk ["alpha", "beta"] [6, 5] [0] [9]).sim_docs_indx.length =
          (SimRow.mk ["alpha", "beta"] [6, 5] [0] [9]).sim_docs_prob.length) :=
  ⟨by decide,
   c4_topics_csv_columns [some ("cat", 3), none] [[0]] embW headSim 2 1
     (SimRow.mk ["alpha", "beta"] [6, 5] [0] [9]) (by decide)⟩

/-- C5 counterexample: called with --numtopicwords = 5, the pipeline still hands the
literal caps 30/30 to the similarity lookup (line 207); on the six-word model the one
topic's similarity word list has 6 entries, exceeding the caller-supplied target 5 —
so the num_words target does not govern the similarity-based lists. -/
theorem c5_counterexample :
    ((labelingStage 5 [[0]] [] [] [] embW headSim).simRows.map
        (fun s => s.sim_words.length)) = [6] ∧ ¬(6 ≤ 5) := by decide

/-- C5 (amended): every topic's frequency-ranked word list has at most num_words
(= --numtopicwords) entries and contains no stopword; the similarity-ranked word and
document lists are capped at the hardcoded 30 each, independently of
--numtopicwords. -/
theorem c5_labeling_caps (numtopicwords : Nat) (centers : List (List ℚ))
    (topTopic : List Nat) (docsTokens : List (List String)) (stopwords : List String)
    (m : EmbModel) (sim : List ℚ → List ℚ → ℚ) (row : List (String × Nat))
    (hrow : row ∈ get_all_topics_from_centers centers topTopic docsTokens stopwords
      numtopicwords) (s : SimRow)
    (hs : s ∈ (labelingStage numtopicwords centers topTopic docsTokens stopwords m
      sim).simRows) :
    row.length ≤ numtopicwords ∧ (∀ p ∈ row, isStopword stopwords p.1 = false) ∧
      s.sim_words.length ≤ 30 ∧ s.sim_docs_indx.length ≤ 30 := by
  have hs2 : s ∈ get_most_similar_words_and_docs centers m sim 30 30 := hs
  have hlens := simRow_lengths centers m sim 30 30 s hs2
  unfold get_all_topics_from_centers at hrow
  obtain ⟨t, ht, rfl⟩ := List.mem_map.mp hrow
  exact ⟨topWordsForTopic_length_le _ _ _,
    fun p hp => topWordsForTopic_no_stopword _ _ _ p hp, hlens.1, hlens.2.2.1⟩

/-- Witness for C5 (amended) at a concrete input: one topic whose documents tokenize
to ["cat", "the", "cat"] with stopword set ["the"] and --numtopicwords = 5; the
frequency row is [("cat", 2)] and the similarity row ranks the whole six-word
vocabulary and the single document. -/
theorem c5_labeling_caps_witness :
    [("cat", 2)] ∈
        get_all_topics_from_centers [[0]] [0] [["cat", "the", "cat"]] ["the"] 5 ∧
      SimRow.mk ["alpha", "beta", "gamma", "delta", "epsilon", "zeta"]
          [6, 5, 4, 3, 2, 1] [0] [9] ∈
        (labelingStage 5 [[0]] [0] [["cat", "the", "cat"]] ["the"] embW
          headSim).simRows ∧
      ([("cat", 2)].length ≤ 5 ∧
        (∀ p ∈ [("cat", 2)], isStopword ["the"] p.1 = false) ∧
        (SimRow.mk ["alpha", "beta", "gamma", "delta", "epsilon", "zeta"]
            [6, 5, 4, 3, 2, 1] [0] [9]).sim_words.length ≤ 30 ∧
        (SimRow.mk ["alpha", "beta", "gamma", "delta", "epsilon", "zeta"]
            [6, 5, 4, 3, 2, 1] [0] [9]).sim_docs_indx.length ≤ 30) :=
  ⟨by decide, by decide,
   c5_labeling_caps 5 [[0]] [0] [["cat", "the", "cat"]] ["the"] embW headSim
     [("cat", 2)] (by decide)
     (SimRow.mk ["alpha", "beta", "gamma", "delta", "epsilon", "zeta"]
       [6, 5, 4, 3, 2, 1] [0] [9]) (by decide)⟩

/-- C6: a topic with zero hard-assigned documents still yields a table row rather
than an error: its raw frequency list is empty and its final top_words /
top_words_count entries are all-placeholder (empty-string words with count 0, padded
to the table's row width); the labeling pass produces one row per topic. -/
theorem c6_empty_topic_placeholder (numtopicwords : Nat) (centers : List (List ℚ))
    (topTopic : List Nat) (docsTokens : List (List String)) (stopwords : List String)
    (m : EmbModel) (sim : List ℚ → List ℚ → ℚ) (t : Nat) (ht : t < centers.length)
    (hempty : t ∉ topTopic) :
    (get_all_topics_from_centers centers topTopic docsTokens stopwords
        numtopicwords).getD t [("w", 1)] = [] ∧
      (get_all_topics_from_centers centers topTopic docsTokens stopwords
        numtopicwords).length = centers.length ∧
      (labelingStage numtopicwords centers topTopic docsTokens stopwords m
          sim).top_words.getD t ["w"] =
        List.replicate (maxRowLen (get_all_topics_from_centers centers topTopic
          docsTokens stopwords numtopicwords)) "" ∧
      (labelingStage numtopicwords centers topTopic docsTokens stopwords m
          sim).top_words_count.getD t [1] =
        List.replicate (maxRowLen (get_all_topics_from_centers centers topTopic
          docsTokens stopwords numtopicwords)) 0 ∧
      (labelingStage numtopicwords centers topTopic docsTokens stopwords m
          sim).top_words.length = centers.length := by
  have hlenraw : (get_all_topics_from_centers centers topTopic docsTokens stopwords
      numtopicwords).length = centers.length := by
    simp [get_all_topics_from_centers]
  have hrawD : ∀ d : List (String × Nat),
      (get_all_topics_from_centers centers topTopic docsTokens stopwords
        numtopicwords).getD t d = [] := by
    intro d
    unfold get_all_topics_from_centers
    rw [getD_map_range _ _ _ _ ht, topicDocTokens_eq_nil t topTopic docsTokens hempty,
      topWordsForTopic_nil]
  have hpadlen : t < (padTopicRows (get_all_topics_from_centers centers topTopic
      docsTokens stopwords numtopicwords)).length := by
    simpa [padTopicRows, hlenraw] using ht
  have hpadD : (padTopicRows (get_all_topics_from_centers centers topTopic docsTokens
      stopwords numtopicwords)).getD t [] =
      List.replicate (maxRowLen (get_all_topics_from_centers centers topTopic
        docsTokens stopwords numtopicwords)) none := by
    unfold padTopicRows
    rw [getD_map_lt _ _ t _ [] (by simpa [hlenraw] using ht), hrawD []]
    simp
  refine ⟨hrawD _, hlenraw, ?_, ?_, ?_⟩
  · have h1 : (labelingStage numtopicwords centers topTopic docsTokens stopwords m
        sim).top_words =
        (padTopicRows (get_all_topics_from_centers centers topTopic docsTokens
          stopwords numtopicwords)).map (fun r => (unpackTopicRow r).1) := rfl
    rw [h1, getD_map_lt _ _ t _ [] hpadlen, hpadD]
    simp [unpackTopicRow, fillPair, List.map_replicate]
  · have h1 : (labelingStage numtopicwords centers topTopic docsTokens stopwords m
        sim).top_words_count =
        (padTopicRows (get_all_topics_from_centers centers topTopic docsTokens
          stopwords numtopicwords)).map (fun r => (unpackTopicRow r).2) := rfl
    rw [h1, getD_map_lt _ _ t _ [] hpadlen, hpadD]
    simp [unpackTopicRow, fillPair, List.map_replicate]
  · have h1 : (labelingStage numtopicwords centers topTopic docsTokens stopwords m
        sim).top_words =
        (padTopicRows (get_all_topics_from_centers centers topTopic docsTokens
          stopwords numtopicwords)).map (fun r => (unpackTopicRow r).1) := rfl
    rw [h1]
    simp [padTopicRows, hlenraw]

/-- Witness for C6 at a concrete input: two centers, both documents hard-assigned to
topic 0, so topic 1 is empty; --numtopicwords = 3. -/
theorem c6_empty_topic_placeholder_witness :
    1 < ([[0], [1]] : List (List ℚ)).length ∧ 1 ∉ [0, 0] ∧
      ((get_all_topics_from_centers [[0], [1]] [0, 0] [["cat"], ["dog"]] [] 3).getD 1
          [("w", 1)] = [] ∧
        (get_all_topics_from_centers [[0], [1]] [0, 0] [["cat"], ["dog"]] []
          3).length = ([[0], [1]] : List (List ℚ)).length ∧
        (labelingStage 3 [[0], [1]] [0, 0] [["cat"], ["dog"]] [] embW
            headSim).top_words.getD 1 ["w"] =
          List.replicate (maxRowLen (get_all_topics_from_centers [[0], [1]] [0, 0]
            [["cat"], ["dog"]] [] 3)) "" ∧
        (labelingStage 3 [[0], [1]] [0, 0] [["cat"], ["dog"]] [] embW
            headSim).top_words_count.getD 1 [1] =
          List.replicate (maxRowLen (get_all_topics_from_centers [[0], [1]] [0, 0]
            [["cat"], ["dog"]] [] 3)) 0 ∧
        (labelingStage 3 [[0], [1]] [0, 0] [["cat"], ["dog"]] [] embW
            headSim).top_words.length = ([[0], [1]] : List (List ℚ)).length) :=
  ⟨by decide, by decide,
   c6_empty_topic_placeholder 3 [[0], [1]] [0, 0] [["cat"], ["dog"]] [] embW headSim
     1 (by decide) (by decide)⟩

/-- C10: the stopword set is derived solely by language detection over the
space-joined first 100 vocabulary tokens of the loaded model; with the vocabulary
held fixed, two runs with any two argument records — in particular two that differ
only in the --language argument — obtain the same stopword set. -/
theorem c10_stopwords_ignore_language (detector : String → List String × String)
    (a1 a2 : Args) (vocab : List String) :
    pipelineStopwords detector a1 vocab = pipelineStopwords detector a2 vocab ∧
      pipelineStopwords detector a1 vocab =
        detector (String.intercalate " " (vocab.take 100)) :=
  ⟨rfl, rfl⟩

end PVTM
